import Mathlib

/-!
Shallow embedding of the pywincffi input-validation / error-translation
layer (`pywincffi/kernel32/file.py` and the core checks module it calls),
together with proofs of the behavioural properties claimed for it.

Values that cross the foreign-function boundary are modelled by `PyValue`;
the native library (its integer constants and the outcome of each native
call) is passed in explicitly, so every wrapper is a pure function of its
arguments plus the native world it observes.
-/

set_option maxHeartbeats 1000000

namespace PyWinCffi

/-- Introspected native type of a cdata value: cffi's `typeof` reports a
`kind` (e.g. `"pointer"`) and a C name (e.g. `"void *"`). -/
structure NativeType where
  kind : String
  cname : String
deriving DecidableEq, Repr

/-- A Python-level value as seen at the FFI boundary: `none` is Python's
`None`, `NULL` is `ffi.NULL`, and `cdata` any other foreign object with an
introspectable native type. -/
inductive PyValue where
  | none
  | NULL
  | int (n : Int)
  | str (s : String)
  | cdata (ty : NativeType)
deriving DecidableEq, Repr

/-- `ffi.typeof`: `ffi.NULL` is a `void *` pointer, other cdata report
their own native type, and plain Python values have no native type. -/
def typeof : PyValue → Option NativeType
  | PyValue.NULL => some ⟨"pointer", "void *"⟩
  | PyValue.cdata ty => some ty
  | _ => Option.none

/-- InputError carries the parameter name, the received value and a
description of the violated constraint (spec section 6). -/
structure InputError where
  name : String
  value : PyValue
  expected : String
deriving DecidableEq, Repr

/-- WindowsAPIError carries the failing function's name plus the native
error code and message (spec section 6). -/
structure WindowsAPIError where
  function : String
  errno : Int
  message : String
deriving DecidableEq, Repr

/-- Either kind of structured error raised by the layer. -/
inductive PyError where
  | input (e : InputError)
  | winapi (e : WindowsAPIError)
deriving DecidableEq, Repr

/-- Thread-local native last-error state: numeric code and message, as
returned by `ffi.getwinerror()`. -/
structure LastError where
  errno : Int
  message : String
deriving DecidableEq, Repr

/-- The constraint kinds used by the call sites in `file.py`: plain type
constraints (`string_types` / `integer_types`), the `Enums.HANDLE`,
`Enums.UTF8` and structure-pointer checks, and an allowed-value set. -/
inductive Check where
  | stringType
  | integerType
  | handle
  | utf8
  | structPointer (cname : String)
  | allowedValues (vs : List Int)
deriving DecidableEq, Repr

/-- Whether a value satisfies a constraint.  Modelled from the spec:
the implementation of the checks module is not under `src/`, so each
branch follows spec section 4.1: plain type constraints are instance
checks; `handle` requires the introspected native type to have kind
`"pointer"` and C name `"void *"`; `utf8` requires a string; a
structure-pointer check accepts the explicit null sentinel or a value of
the expected structure pointer type; an allowed-value set requires
membership. -/
def checkOk (c : Check) (value : PyValue) : Bool :=
  match c with
  | Check.stringType =>
      match value with | PyValue.str _ => true | _ => false
  | Check.integerType =>
      match value with | PyValue.int _ => true | _ => false
  | Check.handle =>
      match typeof value with
      | some ty => decide (ty.kind = "pointer" ∧ ty.cname = "void *")
      | Option.none => false
  | Check.utf8 =>
      match value with | PyValue.str _ => true | _ => false
  | Check.structPointer cname =>
      match value with
      | PyValue.NULL => true
      | _ =>
          match typeof value with
          | some ty => decide (ty.cname = cname)
          | Option.none => false
  | Check.allowedValues vs =>
      match value with | PyValue.int n => vs.contains n | _ => false

/-- Human-readable description of a constraint, used in the raised
InputError. -/
def checkDescription : Check → String
  | Check.stringType => "string type"
  | Check.integerType => "integer type"
  | Check.handle => "handle (void * pointer)"
  | Check.utf8 => "utf8 string"
  | Check.structPointer cname => cname
  | Check.allowedValues _ => "member of allowed values"

/-- Modelled from the spec: `input_check` (core checks module, not under
`src/`) validates one argument and raises InputError naming the parameter
unless the value satisfies the constraint; it has no other effect (spec
section 4.1). -/
def input_check (name : String) (value : PyValue) (c : Check) :
    Except InputError Unit :=
  if checkOk c value then Except.ok ()
  else Except.error ⟨name, value, checkDescription c⟩

/-- The expected-result policy of the error translator: either an exact
expected value or the "nonzero" sentinel (`Enums.NON_ZERO`). -/
inductive Expected where
  | value (v : Int)
  | nonZero
deriving DecidableEq, Repr

/-- Whether a return code counts as success under a policy
(spec section 4.2). -/
def matchesExpected (code : Int) : Expected → Bool
  | Expected.value v => decide (code = v)
  | Expected.nonZero => decide (code ≠ 0)

/-- Outcome of one `error_check` invocation: whether it raised, and
whether the native last-error state was queried. -/
structure CheckOutcome where
  result : Except WindowsAPIError Unit
  queriedLastError : Bool
deriving Repr

/-- Modelled from the spec: `error_check` (core checks module, not under
`src/`).  Per spec section 4.2 the code is compared against the
expected-result policy; only on failure is the native last-error state
queried for (numeric code, message), and WindowsAPIError(function, code,
message) is raised from that state. -/
def error_check (function : String) (code : Int) (expected : Expected)
    (le : LastError) : CheckOutcome :=
  if matchesExpected code expected then ⟨Except.ok (), false⟩
  else ⟨Except.error ⟨function, le.errno, le.message⟩, true⟩

/-- Modelled from the spec: the call `error_check("CreateFile")` omits the
return code; per spec sections 4.2 and 4.4 the check then tests the native
last-error code itself against the default expected value 0, so an OS
report such as "file already exists" surfaces as a WindowsAPIError carrying
that last-error code and message. -/
def error_check_default (function : String) (le : LastError) : CheckOutcome :=
  error_check function le.errno (Expected.value 0) le

/-- The injected native library: the fixed catalog of integer constants
consumed by `file.py` (spec section 6; the binding layer supplies their
numeric values). -/
structure Library where
  FILE_SHARE_READ : Int
  CREATE_ALWAYS : Int
  CREATE_NEW : Int
  OPEN_ALWAYS : Int
  OPEN_EXISTING : Int
  TRUNCATE_EXISTING : Int
  FILE_ATTRIBUTE_NORMAL : Int
  ERROR_ALREADY_EXISTS : Int
  MOVEFILE_REPLACE_EXISTING : Int
  MOVEFILE_WRITE_THROUGH : Int
deriving Repr

/-- A concrete library carrying the real Windows SDK constant values,
used to instantiate theorems on concrete inputs. -/
def winLibrary : Library where
  FILE_SHARE_READ := 1
  CREATE_ALWAYS := 2
  CREATE_NEW := 1
  OPEN_ALWAYS := 4
  OPEN_EXISTING := 3
  TRUNCATE_EXISTING := 5
  FILE_ATTRIBUTE_NORMAL := 128
  ERROR_ALREADY_EXISTS := 183
  MOVEFILE_REPLACE_EXISTING := 1
  MOVEFILE_WRITE_THROUGH := 8

/-- The FFI context; `wchar_size` is `ffi.sizeof("wchar_t")`
(2 on Windows). -/
structure FFI where
  wchar_size : Nat
deriving Repr

/-- `len(lpBuffer)` for a validated UTF8 buffer argument. -/
def pyLen : PyValue → Nat
  | PyValue.str s => s.length
  | _ => 0

/-- Integer payload of a validated integer argument. -/
def pyInt : PyValue → Int
  | PyValue.int n => n
  | _ => 0

/-- What this thread observes of the native `WriteFile` call: its return
code, the value it stores in the `bytes_written` out-parameter, and the
last-error state it leaves behind. -/
structure NativeWrite where
  code : Int
  written : Nat
  le : LastError
deriving Repr

/-- Result of the `WriteFile` wrapper: the returned bytes-written count or
the raised error, and the `nNumberOfBytesToWrite` byte count passed to the
native primitive (`Option.none` when the native call was never made). -/
structure WriteFileOut where
  result : Except PyError Nat
  bytesRequested : Option Nat
deriving Repr

/-- The three `input_check` calls of `WriteFile`, in source order. -/
def writeFileChecks (hFile lpBuffer lpOverlapped : PyValue) :
    Except InputError Unit := do
  input_check "hFile" hFile Check.handle
  input_check "lpBuffer" lpBuffer Check.utf8
  input_check "lpOverlapped" lpOverlapped (Check.structPointer "OVERLAPPED[1]")

/-- `WriteFile(hFile, lpBuffer, lpOverlapped=None)` from
`pywincffi/kernel32/file.py`: default the overlapped pointer to NULL,
validate the three arguments, allocate a `wchar_t[len(lpBuffer)]` buffer
and pass `ffi.sizeof` of it (element count times `wchar_size`) to the
native call, then route the return code through
`error_check(..., expected=Enums.NON_ZERO)` and return `bytes_written[0]`. -/
def WriteFile (ffi : FFI) (native : NativeWrite)
    (hFile lpBuffer lpOverlapped : PyValue) : WriteFileOut :=
  let lpOverlapped :=
    if lpOverlapped = PyValue.none then PyValue.NULL else lpOverlapped
  match writeFileChecks hFile lpBuffer lpOverlapped with
  | Except.error e => ⟨Except.error (PyError.input e), Option.none⟩
  | Except.ok () =>
      let nNumberOfBytesToWrite := pyLen lpBuffer
      let sizeofBuffer := ffi.wchar_size * nNumberOfBytesToWrite
      match (error_check "WriteFile" native.code Expected.nonZero
          native.le).result with
      | Except.error err =>
          ⟨Except.error (PyError.winapi err), some sizeofBuffer⟩
      | Except.ok () => ⟨Except.ok native.written, some sizeofBuffer⟩

/-- What this thread observes of the native `ReadFile` call: its return
code, the contents of the `lpBuffer` wide-character array after the call,
and the last-error state it leaves behind. -/
structure NativeRead where
  code : Int
  buffer : List Char
  le : LastError
deriving Repr

/-- Result of the `ReadFile` wrapper: the returned string or the raised
error, and the byte count requested from the native primitive
(`Option.none` when the native call was never made). -/
structure ReadFileOut where
  result : Except PyError String
  bytesRequested : Option Nat
deriving Repr

/-- `ffi.string` on a wide-character buffer: the contents up to the first
NUL character. -/
def ffiString (buffer : List Char) : String :=
  String.mk (buffer.takeWhile (fun c => c ≠ Char.ofNat 0))

/-- The three `input_check` calls of `ReadFile`, in source order. -/
def readFileChecks (hFile nNumberOfBytesToRead lpOverlapped : PyValue) :
    Except InputError Unit := do
  input_check "hFile" hFile Check.handle
  input_check "nNumberOfBytesToRead" nNumberOfBytesToRead Check.integerType
  input_check "lpOverlapped" lpOverlapped (Check.structPointer "OVERLAPPED[1]")

/-- `ReadFile(hFile, nNumberOfBytesToRead, lpOverlapped=None)` from
`pywincffi/kernel32/file.py`: default the overlapped pointer to NULL,
validate the three arguments, allocate `wchar_t[nNumberOfBytesToRead]` and
request `ffi.sizeof` of it (element count times `wchar_size`) from the
native call, route the return code through
`error_check(..., expected=Enums.NON_ZERO)` and return
`ffi.string(lpBuffer)`. -/
def ReadFile (ffi : FFI) (native : NativeRead)
    (hFile nNumberOfBytesToRead lpOverlapped : PyValue) : ReadFileOut :=
  let lpOverlapped :=
    if lpOverlapped = PyValue.none then PyValue.NULL else lpOverlapped
  match readFileChecks hFile nNumberOfBytesToRead lpOverlapped with
  | Except.error e => ⟨Except.error (PyError.input e), Option.none⟩
  | Except.ok () =>
      let sizeofBuffer := ffi.wchar_size * (pyInt nNumberOfBytesToRead).toNat
      match (error_check "ReadFile" native.code Expected.nonZero
          native.le).result with
      | Except.error err =>
          ⟨Except.error (PyError.winapi err), some sizeofBuffer⟩
      | Except.ok () => ⟨Except.ok (ffiString native.buffer), some sizeofBuffer⟩

/-- What this thread observes of the native `MoveFileEx` call. -/
structure NativeMove where
  code : Int
  le : LastError
deriving Repr

/-- Result of the `MoveFileEx` wrapper: it returns nothing on success;
`nativeCalled` records whether the native primitive was invoked. -/
structure MoveFileExOut where
  result : Except PyError Unit
  nativeCalled : Bool
deriving Repr

/-- The `input_check` calls of `MoveFileEx`, in source order: the new name
is validated only when it is not `None` (a `None` new name is marshalled
as NULL without validation). -/
def moveFileExChecks (lpExistingFileName lpNewFileName dwFlags : PyValue) :
    Except InputError Unit := do
  input_check "lpExistingFileName" lpExistingFileName Check.stringType
  input_check "dwFlags" dwFlags Check.integerType
  if lpNewFileName ≠ PyValue.none then
    input_check "lpNewFileName" lpNewFileName Check.stringType
  else
    pure ()

/-- `MoveFileEx(lpExistingFileName, lpNewFileName, dwFlags=None)` from
`pywincffi/kernel32/file.py`: default `dwFlags` to
`MOVEFILE_REPLACE_EXISTING | MOVEFILE_WRITE_THROUGH`, validate, invoke the
native primitive and route the return code through
`error_check(..., expected=Enums.NON_ZERO)`. -/
def MoveFileEx (lib : Library) (native : NativeMove)
    (lpExistingFileName lpNewFileName dwFlags : PyValue) : MoveFileExOut :=
  let dwFlags :=
    if dwFlags = PyValue.none then
      PyValue.int (Int.lor lib.MOVEFILE_REPLACE_EXISTING
        lib.MOVEFILE_WRITE_THROUGH)
    else dwFlags
  match moveFileExChecks lpExistingFileName lpNewFileName dwFlags with
  | Except.error e => ⟨Except.error (PyError.input e), false⟩
  | Except.ok () =>
      match (error_check "MoveFileEx" native.code Expected.nonZero
          native.le).result with
      | Except.error err => ⟨Except.error (PyError.winapi err), true⟩
      | Except.ok () => ⟨Except.ok (), true⟩

/-- What this thread observes of the native `CreateFile` call: the handle
it returns and the last-error state it leaves behind. -/
structure NativeCreate where
  handle : PyValue
  le : LastError
deriving Repr

/-- Result of the `CreateFile` wrapper: the returned handle or the raised
error; `nativeCalled` records whether the native primitive was invoked. -/
structure CreateFileOut where
  result : Except PyError PyValue
  nativeCalled : Bool
deriving Repr

/-- The defaulted values of the five optional `CreateFile` arguments, as
computed at the top of the wrapper. -/
structure CreateFileDefaults where
  dwShareMode : PyValue
  lpSecurityAttributes : PyValue
  dwCreationDisposition : PyValue
  dwFlagsAndAttributes : PyValue
  hTemplateFile : PyValue
deriving DecidableEq, Repr

/-- The default-application step of `CreateFile`: each `None` optional
argument is replaced by its documented default. -/
def createFileDefaults (lib : Library)
    (dwShareMode lpSecurityAttributes dwCreationDisposition
     dwFlagsAndAttributes hTemplateFile : PyValue) : CreateFileDefaults where
  dwShareMode :=
    if dwShareMode = PyValue.none then PyValue.int lib.FILE_SHARE_READ
    else dwShareMode
  lpSecurityAttributes :=
    if lpSecurityAttributes = PyValue.none then PyValue.NULL
    else lpSecurityAttributes
  dwCreationDisposition :=
    if dwCreationDisposition = PyValue.none then PyValue.int lib.CREATE_ALWAYS
    else dwCreationDisposition
  dwFlagsAndAttributes :=
    if dwFlagsAndAttributes = PyValue.none then
      PyValue.int lib.FILE_ATTRIBUTE_NORMAL
    else dwFlagsAndAttributes
  hTemplateFile :=
    if hTemplateFile = PyValue.none then PyValue.NULL else hTemplateFile

/-- The seven `input_check` calls of `CreateFile`, in source order; the
creation disposition is validated against the allowed-value set built from
the library's five disposition constants. -/
def createFileChecks (lib : Library)
    (lpFileName dwDesiredAccess dwShareMode lpSecurityAttributes
     dwCreationDisposition dwFlagsAndAttributes hTemplateFile : PyValue) :
    Except InputError Unit := do
  input_check "lpFileName" lpFileName Check.stringType
  input_check "dwDesiredAccess" dwDesiredAccess Check.integerType
  input_check "dwShareMode" dwShareMode Check.integerType
  input_check "lpSecurityAttributes" lpSecurityAttributes
    (Check.structPointer "SECURITY_ATTRIBUTES *")
  input_check "dwCreationDisposition" dwCreationDisposition
    (Check.allowedValues
      [lib.CREATE_ALWAYS, lib.CREATE_NEW, lib.OPEN_ALWAYS,
       lib.OPEN_EXISTING, lib.TRUNCATE_EXISTING])
  input_check "dwFlagsAndAttributes" dwFlagsAndAttributes Check.integerType
  input_check "hTemplateFile" hTemplateFile Check.handle

/-- `CreateFile(...)` from `pywincffi/kernel32/file.py`: apply the
documented defaults, validate all seven arguments, invoke the native
primitive, and run `error_check("CreateFile")`.  If that check raises and
the creation disposition is `CREATE_ALWAYS` while the error's code is
`ERROR_ALREADY_EXISTS`, the handle is returned anyway; any other
WindowsAPIError is re-raised. -/
def CreateFile (lib : Library) (native : NativeCreate)
    (lpFileName dwDesiredAccess dwShareMode lpSecurityAttributes
     dwCreationDisposition dwFlagsAndAttributes hTemplateFile : PyValue) :
    CreateFileOut :=
  let d := createFileDefaults lib dwShareMode lpSecurityAttributes
    dwCreationDisposition dwFlagsAndAttributes hTemplateFile
  match createFileChecks lib lpFileName dwDesiredAccess d.dwShareMode
      d.lpSecurityAttributes d.dwCreationDisposition d.dwFlagsAndAttributes
      d.hTemplateFile with
  | Except.error e => ⟨Except.error (PyError.input e), false⟩
  | Except.ok () =>
      match (error_check_default "CreateFile" native.le).result with
      | Except.ok () => ⟨Except.ok native.handle, true⟩
      | Except.error err =>
          if d.dwCreationDisposition = PyValue.int lib.CREATE_ALWAYS ∧
              err.errno = lib.ERROR_ALREADY_EXISTS then
            ⟨Except.ok native.handle, true⟩
          else ⟨Except.error (PyError.winapi err), true⟩

/-- Modelled from the spec: the Handle wrapper (wintypes module, not under
`src/`): an owning/non-owning wrapper around a raw native handle value
with an inheritability flag; per spec section 3, equality is determined
solely by the raw value. -/
structure Handle where
  raw : Int
  owned : Bool
  inheritable : Bool
deriving Repr

/-- Modelled from the spec: Handle equality compares only the raw native
handle values (spec section 3 invariant). -/
def handleEq (a b : Handle) : Bool :=
  decide (a.raw = b.raw)

/-- Helper: `input_check` succeeds exactly when the constraint holds. -/
theorem input_check_eq_ok_iff (name : String) (v : PyValue) (c : Check) :
    input_check name v c = Except.ok () ↔ checkOk c v = true := by
  unfold input_check
  by_cases h : checkOk c v = true
  · simp [h]
  · simp [h]

/-- C2: under the "nonzero" expected policy, `error_check` raises
WindowsAPIError exactly when the code is 0; a nonzero code returns with no
raise and no last-error query. -/
theorem check_nonzero_raises_iff_zero (function : String) (code : Int)
    (le : LastError) :
    ((∃ err, (error_check function code Expected.nonZero le).result
        = Except.error err) ↔ code = 0)
    ∧ (code ≠ 0 →
        error_check function code Expected.nonZero le = ⟨Except.ok (), false⟩) := by
  constructor
  · constructor
    · rintro ⟨err, herr⟩
      by_contra hc
      simp [error_check, matchesExpected, hc] at herr
    · intro h0
      exact ⟨⟨function, le.errno, le.message⟩,
        by simp [error_check, matchesExpected, h0]⟩
  · intro h0
    simp [error_check, matchesExpected, h0]

/-- C2 witness: `error_check("Foobar", code=1, expected=NON_ZERO)` with
last-error (0, "NGTG") succeeds without querying the last-error state. -/
theorem check_nonzero_raises_iff_zero_witness :
    error_check "Foobar" 1 Expected.nonZero ⟨0, "NGTG"⟩
      = ⟨Except.ok (), false⟩ :=
  (check_nonzero_raises_iff_zero "Foobar" 1 ⟨0, "NGTG"⟩).2 (by decide)

/-- C3: under the exact-match policy, `error_check` raises exactly when
the code differs from the expected value, and the raised WindowsAPIError
carries the function name together with the numeric code and message of
the native last-error state at the moment of failure. -/
theorem check_exact_match_policy (function : String) (code v : Int)
    (le : LastError) :
    (code = v →
      error_check function code (Expected.value v) le = ⟨Except.ok (), false⟩)
    ∧ (code ≠ v →
      (error_check function code (Expected.value v) le).result
        = Except.error ⟨function, le.errno, le.message⟩) := by
  constructor
  · intro h
    simp [error_check, matchesExpected, h]
  · intro h
    simp [error_check, matchesExpected, h]

/-- C3 witness: `check_result("Foobar", code=0, expected=2)` with
simulated last-error (0, "NGTG") raises WindowsAPIError carrying code 0
and message "NGTG". -/
theorem check_exact_match_policy_witness :
    (error_check "Foobar" 0 (Expected.value 2) ⟨0, "NGTG"⟩).result
      = Except.error ⟨"Foobar", 0, "NGTG"⟩ :=
  (check_exact_match_policy "Foobar" 0 2 ⟨0, "NGTG"⟩).2 (by decide)

/-- C4: `error_check` queries the native last-error state exactly when the
code comparison against the expected-result policy fails; when the
comparison succeeds it neither queries nor raises. -/
theorem check_queries_last_error_iff_comparison_fails (function : String)
    (code : Int) (expected : Expected) (le : LastError) :
    ((error_check function code expected le).queriedLastError
      = !(matchesExpected code expected))
    ∧ ((error_check function code expected le).queriedLastError = false
      ↔ (error_check function code expected le).result = Except.ok ()) := by
  cases h : matchesExpected code expected
  · simp [error_check, h]
  · simp [error_check, h]

/-- C5: validation against the "is a native handle" constraint succeeds
exactly when type introspection reports a pointer of C type `void *`, and
any failure raises an InputError naming the validated parameter; in
particular `None` fails. -/
theorem input_check_handle_introspection (name : String) (v : PyValue) :
    (input_check name v Check.handle = Except.ok ()
      ↔ typeof v = some ⟨"pointer", "void *"⟩)
    ∧ (∀ e, input_check name v Check.handle = Except.error e → e.name = name) := by
  constructor
  · constructor
    · intro h
      have hc : checkOk Check.handle v = true := by
        by_contra hc
        simp [input_check, hc] at h
      cases v with
      | NULL => rfl
      | cdata ty =>
          cases ty with
          | mk kind cname =>
              simp only [checkOk, typeof, decide_eq_true_eq] at hc
              obtain ⟨h1, h2⟩ := hc
              subst h1
              subst h2
              rfl
      | none => simp [checkOk, typeof] at hc
      | int n => simp [checkOk, typeof] at hc
      | str s => simp [checkOk, typeof] at hc
    · intro h
      have hc : checkOk Check.handle v = true := by
        simp [checkOk, h]
      simp [input_check, hc]
  · intro e he
    simp only [input_check] at he
    by_cases hc : checkOk Check.handle v = true
    · rw [if_pos hc] at he
      simp at he
    · rw [if_neg hc] at he
      injection he with h2
      rw [← h2]

/-- C5 witness: validating parameter "hFile" with value `None` against the
handle constraint raises an InputError whose parameter name is "hFile". -/
theorem input_check_handle_introspection_witness :
    input_check "hFile" PyValue.none Check.handle
      = Except.error ⟨"hFile", PyValue.none, "handle (void * pointer)"⟩
    ∧ InputError.name ⟨"hFile", PyValue.none, "handle (void * pointer)"⟩
      = "hFile" :=
  ⟨rfl, (input_check_handle_introspection "hFile" PyValue.none).2 _ rfl⟩

/-- C9: Handle wrapper equality is reflexive, symmetric and transitive,
and holds exactly when the raw native handle values coincide, independent
of the ownership or inheritability flags. -/
theorem handle_eq_equivalence (a b c : Handle) :
    (handleEq a a = true)
    ∧ (handleEq a b = true → handleEq b a = true)
    ∧ (handleEq a b = true → handleEq b c = true → handleEq a c = true)
    ∧ (handleEq a b = true ↔ a.raw = b.raw) := by
  refine ⟨by simp [handleEq], ?_, ?_, by simp [handleEq]⟩
  · intro h
    simp only [handleEq, decide_eq_true_eq] at h ⊢
    exact h.symm
  · intro h1 h2
    simp only [handleEq, decide_eq_true_eq] at h1 h2 ⊢
    exact h1.trans h2

/-- C9 witness: two wrappers over raw value 1 with different ownership and
inheritability flags are equal, by transitivity through a third. -/
theorem handle_eq_equivalence_witness :
    handleEq ⟨1, true, false⟩ ⟨1, false, true⟩ = true :=
  (handle_eq_equivalence ⟨1, true, false⟩ ⟨1, true, true⟩ ⟨1, false, true⟩).2.2.1
    (by decide) (by decide)

/-- C1: when validation passes and the native call leaves a nonzero
last-error code, `CreateFile` returns the native handle anyway exactly
when the (defaulted) creation disposition is `CREATE_ALWAYS` and the code
is `ERROR_ALREADY_EXISTS`; for any other disposition or error code the
WindowsAPIError built from the last-error state is propagated unchanged. -/
theorem createfile_already_exists_special_case (lib : Library)
    (native : NativeCreate)
    (lpFileName dwDesiredAccess dwShareMode lpSecurityAttributes
     dwCreationDisposition dwFlagsAndAttributes hTemplateFile : PyValue)
    (d : CreateFileDefaults)
    (hd : createFileDefaults lib dwShareMode lpSecurityAttributes
        dwCreationDisposition dwFlagsAndAttributes hTemplateFile = d)
    (hchecks : createFileChecks lib lpFileName dwDesiredAccess d.dwShareMode
        d.lpSecurityAttributes d.dwCreationDisposition d.dwFlagsAndAttributes
        d.hTemplateFile = Except.ok ())
    (hfail : native.le.errno ≠ 0) :
    (d.dwCreationDisposition = PyValue.int lib.CREATE_ALWAYS ∧
        native.le.errno = lib.ERROR_ALREADY_EXISTS →
      CreateFile lib native lpFileName dwDesiredAccess dwShareMode
        lpSecurityAttributes dwCreationDisposition dwFlagsAndAttributes
        hTemplateFile = ⟨Except.ok native.handle, true⟩)
    ∧ (¬(d.dwCreationDisposition = PyValue.int lib.CREATE_ALWAYS ∧
          native.le.errno = lib.ERROR_ALREADY_EXISTS) →
      CreateFile lib native lpFileName dwDesiredAccess dwShareMode
        lpSecurityAttributes dwCreationDisposition dwFlagsAndAttributes
        hTemplateFile
        = ⟨Except.error (PyError.winapi
            ⟨"CreateFile", native.le.errno, native.le.message⟩), true⟩) := by
  have hec : (error_check_default "CreateFile" native.le).result
      = Except.error ⟨"CreateFile", native.le.errno, native.le.message⟩ := by
    simp [error_check_default, error_check, matchesExpected, hfail]
  constructor
  · intro h
    simp only [CreateFile, hd, hchecks, hec]
    rw [if_pos h]
  · intro h
    simp only [CreateFile, hd, hchecks, hec]
    rw [if_neg h]

/-- C1 witness: with the Windows constants, creating a file under the
default (CREATE_ALWAYS) disposition while the OS reports
ERROR_ALREADY_EXISTS (183) returns the native handle instead of raising. -/
theorem createfile_already_exists_special_case_witness :
    CreateFile winLibrary
        ⟨PyValue.cdata ⟨"pointer", "void *"⟩, ⟨183, "already exists"⟩⟩
        (PyValue.str "file.txt") (PyValue.int 1) PyValue.none PyValue.none
        PyValue.none PyValue.none PyValue.none
      = ⟨Except.ok (PyValue.cdata ⟨"pointer", "void *"⟩), true⟩ :=
  (createfile_already_exists_special_case winLibrary
      ⟨PyValue.cdata ⟨"pointer", "void *"⟩, ⟨183, "already exists"⟩⟩
      (PyValue.str "file.txt") (PyValue.int 1) PyValue.none PyValue.none
      PyValue.none PyValue.none PyValue.none
      ⟨PyValue.int 1, PyValue.NULL, PyValue.int 2, PyValue.int 128,
       PyValue.NULL⟩
      rfl rfl (by decide)).1 (by decide)

/-- C6: validating a creation disposition against the allowed-value set
succeeds exactly when the value is a member of the five library
disposition constants, and `CreateFile` called with an out-of-set
disposition raises InputError naming `dwCreationDisposition` without ever
making the native call. -/
theorem createfile_disposition_allowed_values (lib : Library)
    (native : NativeCreate) (fn : String) (acc disp : Int)
    (hnot : [lib.CREATE_ALWAYS, lib.CREATE_NEW, lib.OPEN_ALWAYS,
        lib.OPEN_EXISTING, lib.TRUNCATE_EXISTING].contains disp = false) :
    (∀ d2 : Int,
      input_check "dwCreationDisposition" (PyValue.int d2)
          (Check.allowedValues
            [lib.CREATE_ALWAYS, lib.CREATE_NEW, lib.OPEN_ALWAYS,
             lib.OPEN_EXISTING, lib.TRUNCATE_EXISTING]) = Except.ok ()
        ↔ [lib.CREATE_ALWAYS, lib.CREATE_NEW, lib.OPEN_ALWAYS,
           lib.OPEN_EXISTING, lib.TRUNCATE_EXISTING].contains d2 = true)
    ∧ CreateFile lib native (PyValue.str fn) (PyValue.int acc) PyValue.none
        PyValue.none (PyValue.int disp) PyValue.none PyValue.none
      = ⟨Except.error (PyError.input ⟨"dwCreationDisposition",
          PyValue.int disp, "member of allowed values"⟩), false⟩ := by
  constructor
  · intro d2
    rw [input_check_eq_ok_iff]
    exact Iff.rfl
  · have hnot' := hnot
    simp only [List.contains_cons, List.contains_nil, Bool.or_eq_false_iff,
      beq_eq_false_iff_ne, ne_eq] at hnot'
    simp [CreateFile, createFileDefaults, createFileChecks, input_check,
      checkOk, typeof, checkDescription, bind, Except.bind, hnot']

/-- C6 witness: with the Windows constants, `CreateFile` called with
`dwCreationDisposition = 999` raises InputError for that parameter and the
native call is never made. -/
theorem createfile_disposition_allowed_values_witness :
    CreateFile winLibrary ⟨PyValue.NULL, ⟨0, "ok"⟩⟩ (PyValue.str "file.txt")
        (PyValue.int 1) PyValue.none PyValue.none (PyValue.int 999)
        PyValue.none PyValue.none
      = ⟨Except.error (PyError.input ⟨"dwCreationDisposition",
          PyValue.int 999, "member of allowed values"⟩), false⟩ :=
  (createfile_disposition_allowed_values winLibrary ⟨PyValue.NULL, ⟨0, "ok"⟩⟩
      "file.txt" 1 999 (by decide)).2

/-- C7: in all four wrappers, a validation failure (InputError) means the
native primitive was never invoked: the operation aborts with no native
call made. -/
theorem validation_failure_prevents_native_call (ffi : FFI) (lib : Library)
    (nw : NativeWrite) (nr : NativeRead) (nm : NativeMove) (nc : NativeCreate)
    (hFile lpBuffer lpOverlapped nRead lpExisting lpNew dwFlags
     lpFileName dwDesiredAccess dwShareMode lpSecurityAttributes
     dwCreationDisposition dwFlagsAndAttributes hTemplateFile : PyValue) :
    (∀ e, (WriteFile ffi nw hFile lpBuffer lpOverlapped).result
        = Except.error (PyError.input e) →
      (WriteFile ffi nw hFile lpBuffer lpOverlapped).bytesRequested
        = Option.none)
    ∧ (∀ e, (ReadFile ffi nr hFile nRead lpOverlapped).result
        = Except.error (PyError.input e) →
      (ReadFile ffi nr hFile nRead lpOverlapped).bytesRequested
        = Option.none)
    ∧ (∀ e, (MoveFileEx lib nm lpExisting lpNew dwFlags).result
        = Except.error (PyError.input e) →
      (MoveFileEx lib nm lpExisting lpNew dwFlags).nativeCalled = false)
    ∧ (∀ e, (CreateFile lib nc lpFileName dwDesiredAccess dwShareMode
          lpSecurityAttributes dwCreationDisposition dwFlagsAndAttributes
          hTemplateFile).result = Except.error (PyError.input e) →
      (CreateFile lib nc lpFileName dwDesiredAccess dwShareMode
          lpSecurityAttributes dwCreationDisposition dwFlagsAndAttributes
          hTemplateFile).nativeCalled = false) := by
  refine ⟨?_, ?_, ?_, ?_⟩
  · intro e he
    cases hc : writeFileChecks hFile lpBuffer
        (if lpOverlapped = PyValue.none then PyValue.NULL else lpOverlapped) with
    | error e2 => simp [WriteFile, hc]
    | ok u =>
        cases u
        cases hm : (error_check "WriteFile" nw.code Expected.nonZero
            nw.le).result <;> simp [WriteFile, hc, hm] at he
  · intro e he
    cases hc : readFileChecks hFile nRead
        (if lpOverlapped = PyValue.none then PyValue.NULL else lpOverlapped) with
    | error e2 => simp [ReadFile, hc]
    | ok u =>
        cases u
        cases hm : (error_check "ReadFile" nr.code Expected.nonZero
            nr.le).result <;> simp [ReadFile, hc, hm] at he
  · intro e he
    cases hc : moveFileExChecks lpExisting lpNew
        (if dwFlags = PyValue.none then
          PyValue.int (Int.lor lib.MOVEFILE_REPLACE_EXISTING
            lib.MOVEFILE_WRITE_THROUGH)
        else dwFlags) with
    | error e2 => simp [MoveFileEx, hc]
    | ok u =>
        cases u
        cases hm : (error_check "MoveFileEx" nm.code Expected.nonZero
            nm.le).result <;> simp [MoveFileEx, hc, hm] at he
  · intro e he
    cases hc : createFileChecks lib lpFileName dwDesiredAccess
        (createFileDefaults lib dwShareMode lpSecurityAttributes
          dwCreationDisposition dwFlagsAndAttributes hTemplateFile).dwShareMode
        (createFileDefaults lib dwShareMode lpSecurityAttributes
          dwCreationDisposition dwFlagsAndAttributes
          hTemplateFile).lpSecurityAttributes
        (createFileDefaults lib dwShareMode lpSecurityAttributes
          dwCreationDisposition dwFlagsAndAttributes
          hTemplateFile).dwCreationDisposition
        (createFileDefaults lib dwShareMode lpSecurityAttributes
          dwCreationDisposition dwFlagsAndAttributes
          hTemplateFile).dwFlagsAndAttributes
        (createFileDefaults lib dwShareMode lpSecurityAttributes
          dwCreationDisposition dwFlagsAndAttributes
          hTemplateFile).hTemplateFile with
    | error e2 => simp [CreateFile, hc]
    | ok u =>
        cases u
        cases hm : (error_check_default "CreateFile" nc.le).result with
        | ok u2 =>
            cases u2
            simp [CreateFile, hc, hm] at he
        | error err =>
            simp only [CreateFile, hc, hm] at he
            by_cases hcond :
                (createFileDefaults lib dwShareMode lpSecurityAttributes
                  dwCreationDisposition dwFlagsAndAttributes
                  hTemplateFile).dwCreationDisposition
                  = PyValue.int lib.CREATE_ALWAYS ∧
                err.errno = lib.ERROR_ALREADY_EXISTS
            · rw [if_pos hcond] at he
              simp at he
            · rw [if_neg hcond] at he
              simp at he

/-- C7 witness: `WriteFile` called with `hFile = None` fails validation
and the native primitive is not invoked. -/
theorem validation_failure_prevents_native_call_witness :
    (WriteFile ⟨2⟩ ⟨1, 0, ⟨0, ""⟩⟩ PyValue.none (PyValue.str "x")
        PyValue.none).bytesRequested = Option.none :=
  (validation_failure_prevents_native_call ⟨2⟩ winLibrary ⟨1, 0, ⟨0, ""⟩⟩
      ⟨1, [], ⟨0, ""⟩⟩ ⟨1, ⟨0, ""⟩⟩ ⟨PyValue.NULL, ⟨0, ""⟩⟩
      PyValue.none (PyValue.str "x") PyValue.none PyValue.none PyValue.none
      PyValue.none PyValue.none PyValue.none PyValue.none PyValue.none
      PyValue.none PyValue.none PyValue.none PyValue.none).1
    ⟨"hFile", PyValue.none, "handle (void * pointer)"⟩ rfl

/-- C8: omitted optional arguments are replaced by their documented
defaults before validation and the native call: the CreateFile defaults
are FILE_SHARE_READ, NULL, CREATE_ALWAYS, FILE_ATTRIBUTE_NORMAL and NULL,
the MoveFileEx flags default is
MOVEFILE_REPLACE_EXISTING | MOVEFILE_WRITE_THROUGH, and each wrapper
behaves identically to the same call with the defaults passed
explicitly. -/
theorem wrappers_apply_documented_defaults (lib : Library)
    (nc : NativeCreate) (nm : NativeMove)
    (lpFileName dwDesiredAccess lpExisting lpNew : PyValue) :
    (createFileDefaults lib PyValue.none PyValue.none PyValue.none
        PyValue.none PyValue.none
      = ⟨PyValue.int lib.FILE_SHARE_READ, PyValue.NULL,
         PyValue.int lib.CREATE_ALWAYS, PyValue.int lib.FILE_ATTRIBUTE_NORMAL,
         PyValue.NULL⟩)
    ∧ (CreateFile lib nc lpFileName dwDesiredAccess PyValue.none PyValue.none
        PyValue.none PyValue.none PyValue.none
      = CreateFile lib nc lpFileName dwDesiredAccess
          (PyValue.int lib.FILE_SHARE_READ) PyValue.NULL
          (PyValue.int lib.CREATE_ALWAYS)
          (PyValue.int lib.FILE_ATTRIBUTE_NORMAL) PyValue.NULL)
    ∧ (MoveFileEx lib nm lpExisting lpNew PyValue.none
      = MoveFileEx lib nm lpExisting lpNew
          (PyValue.int (Int.lor lib.MOVEFILE_REPLACE_EXISTING
            lib.MOVEFILE_WRITE_THROUGH))) := by
  refine ⟨rfl, rfl, rfl⟩

/-- C10: the byte count handed to the native I/O primitive is the caller's
character count times the wide-character size: WriteFile passes
`wchar_size * len(lpBuffer)` (so the bytes-written value it returns, taken
from the native out-parameter, can exceed `len(lpBuffer)`), and ReadFile
requests `wchar_size * nNumberOfBytesToRead` and returns the buffer read
as a NUL-terminated wide string. -/
theorem io_byte_counts_use_wchar_size (ffi : FFI) (nw : NativeWrite)
    (nr : NativeRead) (hFile lpOverlapped : PyValue) (s : String) (n : Int)
    (hw : writeFileChecks hFile (PyValue.str s)
        (if lpOverlapped = PyValue.none then PyValue.NULL else lpOverlapped)
        = Except.ok ())
    (hr : readFileChecks hFile (PyValue.int n)
        (if lpOverlapped = PyValue.none then PyValue.NULL else lpOverlapped)
        = Except.ok ()) :
    ((WriteFile ffi nw hFile (PyValue.str s) lpOverlapped).bytesRequested
      = some (ffi.wchar_size * s.length))
    ∧ (nw.code ≠ 0 →
        (WriteFile ffi nw hFile (PyValue.str s) lpOverlapped).result
          = Except.ok nw.written)
    ∧ ((ReadFile ffi nr hFile (PyValue.int n) lpOverlapped).bytesRequested
      = some (ffi.wchar_size * n.toNat))
    ∧ (nr.code ≠ 0 →
        (ReadFile ffi nr hFile (PyValue.int n) lpOverlapped).result
          = Except.ok (ffiString nr.buffer)) := by
  refine ⟨?_, ?_, ?_, ?_⟩
  · cases hm : (error_check "WriteFile" nw.code Expected.nonZero
        nw.le).result <;> simp [WriteFile, hw, hm, pyLen]
  · intro hcode
    have hm : (error_check "WriteFile" nw.code Expected.nonZero nw.le).result
        = Except.ok () := by
      simp [error_check, matchesExpected, hcode]
    simp [WriteFile, hw, hm]
  · cases hm : (error_check "ReadFile" nr.code Expected.nonZero
        nr.le).result <;> simp [ReadFile, hr, hm, pyInt]
  · intro hcode
    have hm : (error_check "ReadFile" nr.code Expected.nonZero nr.le).result
        = Except.ok () := by
      simp [error_check, matchesExpected, hcode]
    simp [ReadFile, hr, hm]

/-- C10 witness: writing the 11-character string "Hello world" with
2-byte wide characters passes 22 bytes to the native call and returns the
native bytes-written value 22, which exceeds 11; reading 12 characters
requests 24 bytes and returns the buffer contents up to the first NUL. -/
theorem io_byte_counts_use_wchar_size_witness :
    (WriteFile ⟨2⟩ ⟨1, 22, ⟨0, ""⟩⟩ PyValue.NULL
        (PyValue.str "Hello world") PyValue.none).bytesRequested = some 22
    ∧ (WriteFile ⟨2⟩ ⟨1, 22, ⟨0, ""⟩⟩ PyValue.NULL
        (PyValue.str "Hello world") PyValue.none).result = Except.ok 22
    ∧ 22 > "Hello world".length
    ∧ (ReadFile ⟨2⟩ ⟨1, ['h', 'i', Char.ofNat 0, 'x'], ⟨0, ""⟩⟩ PyValue.NULL
        (PyValue.int 12) PyValue.none).bytesRequested = some 24
    ∧ (ReadFile ⟨2⟩ ⟨1, ['h', 'i', Char.ofNat 0, 'x'], ⟨0, ""⟩⟩ PyValue.NULL
        (PyValue.int 12) PyValue.none).result = Except.ok "hi" := by
  have h := io_byte_counts_use_wchar_size ⟨2⟩ ⟨1, 22, ⟨0, ""⟩⟩
    ⟨1, ['h', 'i', Char.ofNat 0, 'x'], ⟨0, ""⟩⟩ PyValue.NULL PyValue.none
    "Hello world" 12 rfl rfl
  refine ⟨h.1, h.2.1 (by decide), by decide, h.2.2.1, ?_⟩
  have h4 := h.2.2.2 (by decide)
  rw [h4]
  rfl

end PyWinCffi

